import Mathlib

/-!
Shallow embedding of the response-integrity verification engine of the
stateless viem transport (source file src/index.ts).

The engine is the class StatelessRpcClient.  Its externally-effectful
collaborators (the key lookup over HTTP, the sshpk key parser, the
tweetnacl ed25519 verifier, the Buffer hex decoder, and the composite
JSON.stringify-then-sha256 hasher) are modelled as components of an
explicit environment record Env; every possible behaviour of those
collaborators is thereby quantified over in the theorems.  All control
flow, dispatch and counting logic of the source is translated directly.
-/

/-- Opaque model of a JavaScript value as far as hashContent inspects it:
Array.isArray dispatch distinguishes an array of items from any other
value.  Non-array values are identified by an opaque string tag. -/
inductive JVal where
  | arr : List JVal → JVal
  | obj : String → JVal

/-- Model of the Attestation type of src/index.ts.  Every field that the
TypeScript runtime value may lack is an Option; identity is an Option
because the source explicitly handles attestations arriving without it. -/
structure Attestation where
  signature : Option String
  signatures : Option (List String)
  signatureFormat : String
  hashAlgo : String
  msg : Option String
  msgs : Option (List String)
  identity : Option String
deriving DecidableEq

/-- Model of the JSON-RPC error object {code, message, data}.  The field
asValue is the same object seen as a JSON value, which is what gets
serialized and hashed when the error is the attested content. -/
structure RpcErrorObj where
  code : Int
  message : String
  data : Option JVal
  asValue : JVal

/-- Model of AttestedJsonRpcResponse: result and error are each possibly
absent (absence also covers a JSON null, matching the nullish semantics
of the source), plus the attestations array. -/
structure AttestedJsonRpcResponse where
  result : Option JVal
  error : Option RpcErrorObj
  attestations : List Attestation

/-- Result of sshpk.parseKey as far as the source inspects it: the key
type tag and the raw public key bytes (key.part.A.data). -/
structure ParsedKey where
  type : String
  keyData : List Nat
deriving DecidableEq

/-- Environment of external collaborators.  Failure of a collaborator is
an Except.error, modelling a thrown exception.  publicKeyFromIdentity
returns none when the well-known key fetch throws. -/
structure Env where
  sha256Hex : JVal → String
  publicKeyFromIdentity : String → Option String
  parseKey : String → Except String ParsedKey
  bufferFromHex : String → Except String (List Nat)
  naclVerify : List Nat → List Nat → List Nat → Except String Bool

/-- JavaScript string truthiness of a possibly-absent string: false for
undefined and for the empty string. -/
def strTruthy : Option String → Bool
  | none => false
  | some s => !(s == "")

/-- Model of the StatelessRpcClient instance state. -/
structure StatelessRpcClient where
  rpcUrl : String
  identities : List String
  minimumRequiredAttestations : Int
  proverUrl : Option String
deriving DecidableEq

/-- Model of the StatelessRpcClient constructor: the threshold argument
defaults to 1 when not supplied (none), and proverUrl defaults to null. -/
def StatelessRpcClient.construct (rpcUrl : String) (identities : List String)
    (minimumRequiredAttestations : Option Int) (proverUrl : Option String) :
    StatelessRpcClient :=
  { rpcUrl := rpcUrl
    identities := identities
    minimumRequiredAttestations := Option.getD minimumRequiredAttestations 1
    proverUrl := proverUrl }

/-- Model of StatelessClientConfig. -/
structure StatelessClientConfig where
  rpcUrl : String
  identities : List String
  minimumRequiredAttestations : Option Int
  proverUrl : Option String
deriving DecidableEq

/-- Model of createStatelessTransport: destructures the config with
default threshold 1 and default proverUrl null, then invokes the
constructor. -/
def createStatelessTransport (config : StatelessClientConfig) : StatelessRpcClient :=
  StatelessRpcClient.construct config.rpcUrl config.identities
    config.minimumRequiredAttestations config.proverUrl

/-- Model of hashContent: an array content is hashed element by element
(sha256 hex digest of the JSON serialization of each element, preserving
order); any other content yields a single digest. -/
def hashContent (sha256Hex : JVal → String) (content : JVal) : List String :=
  match content with
  | JVal.arr items => items.map fun item => sha256Hex item
  | JVal.obj s => [sha256Hex (JVal.obj s)]

/-- Model of the line content = response.result ?? response.error: the
result when present, otherwise the error object viewed as a JSON value,
otherwise nothing (undefined). -/
def contentOf (response : AttestedJsonRpcResponse) : Option JVal :=
  match response.result with
  | some v => some v
  | none => Option.map RpcErrorObj.asValue response.error

/-- Model of verifySignature: hex-decode the signature, hex-decode the
message digest, run nacl.sign.detached.verify; the enclosing try/catch
turns any thrown error of those three steps into a false return.  The
hashAlgo parameter is accepted and ignored exactly as in the source. -/
def verifySignature (env : Env) (msgHash : String) (signature : String)
    (publicKey : List Nat) (hashAlgo : String) : Bool :=
  match env.bufferFromHex signature with
  | Except.error _ => false
  | Except.ok signatureBytes =>
    match env.bufferFromHex msgHash with
    | Except.error _ => false
    | Except.ok msgHashBytes =>
      match env.naclVerify msgHashBytes signatureBytes publicKey with
      | Except.error _ => false
      | Except.ok b => b

/-- Dispatch condition of the batch branch of verifyAttestation: msgs is
present, msgs has positive length, and signatures is present (an empty
signatures array is truthy in JavaScript and therefore passes). -/
def batchFieldsPresent (attestation : Attestation) : Bool :=
  attestation.msgs.isSome && !((attestation.msgs.getD []).length == 0)
    && attestation.signatures.isSome

/-- Model of the msgs.every((msg, index) => verifySignature(msg,
signatures[index], ...)) loop: running off the end of signatures gives an
undefined signature, whose hex decode throws inside verifySignature and
yields false, so a msgs entry without a matching signatures entry fails. -/
def pairsAllVerify (env : Env) (publicKey : List Nat) (hashAlgo : String) :
    List String → List String → Bool
  | [], _ => true
  | _ :: _, [] => false
  | m :: ms, s :: ss =>
    verifySignature env m s publicKey hashAlgo && pairsAllVerify env publicKey hashAlgo ms ss

/-- Model of verifyAttestation: batch branch when msgs is present and
nonempty and signatures is present (subset check of the content digests
against msgs, then every indexed pair must verify); otherwise the single
branch when msg and signature are both truthy strings (membership of msg
in the content digests and one signature check); otherwise false. -/
def verifyAttestation (env : Env) (attestation : Attestation)
    (publicKey : List Nat) (contentHashes : List String) : Bool :=
  if batchFieldsPresent attestation then
    (contentHashes.all fun h => (attestation.msgs.getD []).contains h) &&
      pairsAllVerify env publicKey attestation.hashAlgo
        (attestation.msgs.getD []) (attestation.signatures.getD [])
  else if strTruthy attestation.msg && strTruthy attestation.signature then
    contentHashes.contains (attestation.msg.getD "") &&
      verifySignature env (attestation.msg.getD "") (attestation.signature.getD "")
        publicKey attestation.hashAlgo
  else false

/-- Identity under which the attestation at position i is judged: its own
identity field when truthy, otherwise the allow-list entry at position i
(none when the position is past the end of the allow-list, in which case
the later membership test fails as includes(undefined) does). -/
def effectiveIdentity (identities : List String) (i : Nat)
    (attestation : Attestation) : Option String :=
  if strTruthy attestation.identity then attestation.identity else identities[i]?

/-- Model of the loop body of verifyAttestations, returning the length of
the validAttestations array, processing the attestation list from
position i.  A missing or disallowed identity skips the attestation; a
failed key fetch skips the attestation; a key that parses to a
non-ed25519 type throws, aborting the whole pass (Except.error), as does
a parse failure of the fetched key text. -/
def validAttestationsCount (env : Env) (identities : List String)
    (contentHashes : List String) : List Attestation → Nat → Except String Nat
  | [], _ => Except.ok 0
  | attestation :: rest, i =>
    match effectiveIdentity identities i attestation with
    | none => validAttestationsCount env identities contentHashes rest (i + 1)
    | some ident =>
      if identities.contains ident then
        match env.publicKeyFromIdentity ident with
        | none => validAttestationsCount env identities contentHashes rest (i + 1)
        | some sshPublicKey =>
          match env.parseKey sshPublicKey with
          | Except.error e => Except.error e
          | Except.ok key =>
            if key.type == "ed25519" then
              match validAttestationsCount env identities contentHashes rest (i + 1) with
              | Except.error e => Except.error e
              | Except.ok n =>
                Except.ok
                  ((if verifyAttestation env attestation key.keyData contentHashes
                    then 1 else 0) + n)
            else Except.error "The provided key is not an ed25519 key"
      else validAttestationsCount env identities contentHashes rest (i + 1)

/-- Predicate of one loop iteration judging its attestation valid, used
to characterize the count: the effective identity is allowed, its key
resolves and parses to an ed25519 key, and verifyAttestation passes. -/
def attestationJudgedValid (env : Env) (identities : List String)
    (contentHashes : List String) (i : Nat) (attestation : Attestation) : Bool :=
  match effectiveIdentity identities i attestation with
  | none => false
  | some ident =>
    identities.contains ident &&
      match env.publicKeyFromIdentity ident with
      | none => false
      | some sshPublicKey =>
        match env.parseKey sshPublicKey with
        | Except.error _ => false
        | Except.ok key =>
          (key.type == "ed25519") && verifyAttestation env attestation key.keyData contentHashes

/-- Model of verifyAttestations: hash the content (result, or failing
that the error object; hashing undefined content throws a TypeError,
modelled as Except.error), run the counting loop from position 0, and
compare the count of valid attestations against the threshold. -/
def verifyAttestations (env : Env) (identities : List String)
    (minimumRequiredAttestations : Int) (response : AttestedJsonRpcResponse) :
    Except String Bool :=
  match contentOf response with
  | none => Except.error "TypeError: undefined content cannot be hashed"
  | some content =>
    match validAttestationsCount env identities (hashContent env.sha256Hex content)
        response.attestations 0 with
    | Except.error e => Except.error e
    | Except.ok n => Except.ok (decide (minimumRequiredAttestations ≤ (n : Int)))

/-- Observable steps of one request call, in order of occurrence. -/
inductive Event where
  | proofCheck : Event
  | mainSend : Event
  | attCheck : Event
deriving DecidableEq

/-- Outcome of one request call. -/
inductive ReqResult where
  | ok : Option JVal → ReqResult
  | rpcErr : Int → String → Option JVal → ReqResult
  | thresholdErr : Int → ReqResult
  | passErr : String → ReqResult
  | proofErr : String → ReqResult
  | transportErr : String → ReqResult

/-- Model of the main phase of request: send to the endpoint (the network
outcome, including a non-2xx status or an unexpected batch array, is the
sendOutcome parameter), then run verifyAttestations; a failed threshold
throws the threshold error, an aborted pass rethrows; only then is a
JSON-RPC error object surfaced as RpcError, else the result is returned. -/
def requestMainPhase (env : Env) (c : StatelessRpcClient)
    (sendOutcome : Except String AttestedJsonRpcResponse) :
    List Event × ReqResult :=
  match sendOutcome with
  | Except.error e => ([Event.mainSend], ReqResult.transportErr e)
  | Except.ok resp =>
    match verifyAttestations env c.identities c.minimumRequiredAttestations resp with
    | Except.error e => ([Event.mainSend, Event.attCheck], ReqResult.passErr e)
    | Except.ok false =>
      ([Event.mainSend, Event.attCheck], ReqResult.thresholdErr c.minimumRequiredAttestations)
    | Except.ok true =>
      match resp.error with
      | some e => ([Event.mainSend, Event.attCheck], ReqResult.rpcErr e.code e.message e.data)
      | none => ([Event.mainSend, Event.attCheck], ReqResult.ok resp.result)

/-- Model of request: when proverUrl is truthy and the method is eth_call
the stateless proof verification (its outcome abstracted as the
proofOutcome parameter) runs first and a failure aborts before the main
request is sent; otherwise the main phase runs directly. -/
def request (env : Env) (c : StatelessRpcClient) (method : String)
    (proofOutcome : Except String Unit)
    (sendOutcome : Except String AttestedJsonRpcResponse) :
    List Event × ReqResult :=
  if strTruthy c.proverUrl && (method == "eth_call") then
    match proofOutcome with
    | Except.error e => ([Event.proofCheck], ReqResult.proofErr e)
    | Except.ok _ =>
      let m := requestMainPhase env c sendOutcome
      (Event.proofCheck :: m.1, m.2)
  else requestMainPhase env c sendOutcome

/-!
Concrete fixtures used by the closed witness theorems below.
-/

/-- Environment in which every collaborator succeeds: key lookup returns
a text key per identity, parsing yields an ed25519 key, hex decoding
succeeds and the nacl verifier accepts everything. -/
def envA : Env :=
  { sha256Hex := fun v => match v with
      | JVal.arr _ => "digest-of-array"
      | JVal.obj s => String.append s "#"
  , publicKeyFromIdentity := fun ident => some (String.append ident "-key")
  , parseKey := fun _ => Except.ok { type := "ed25519", keyData := [1, 2] }
  , bufferFromHex := fun s => Except.ok [s.length]
  , naclVerify := fun _ _ _ => Except.ok true }

/-- Environment whose key parser yields a non-ed25519 key. -/
def envB : Env :=
  { envA with parseKey := fun _ => Except.ok { type := "rsa", keyData := [3] } }

/-- Environment whose key lookup always fails. -/
def envC : Env :=
  { envA with publicKeyFromIdentity := fun _ => none }

/-- Environment whose hex decoder always throws. -/
def envD : Env :=
  { envA with bufferFromHex := fun _ => Except.error "bad hex" }

/-- Single-mode attestation over the digest of the result of respA. -/
def attA : Attestation :=
  { signature := some "sig", signatures := none, signatureFormat := "ssh-ed25519"
  , hashAlgo := "sha256", msg := some "r#", msgs := none, identity := some "idA" }

/-- Successful response carrying one attestation. -/
def respA : AttestedJsonRpcResponse :=
  { result := some (JVal.obj "r"), error := none, attestations := [attA] }

/-- Batch attestation with empty msgs and empty signatures. -/
def attB : Attestation :=
  { signature := none, signatures := some [], signatureFormat := "ssh-ed25519"
  , hashAlgo := "sha256", msg := none, msgs := some [], identity := some "idA" }

/-- Batch attestation with one message and one signature. -/
def attC : Attestation :=
  { signature := none, signatures := some ["s0"], signatureFormat := "ssh-ed25519"
  , hashAlgo := "sha256", msg := none, msgs := some ["m0"], identity := some "idA" }

/-- Error object fixture. -/
def errE : RpcErrorObj :=
  { code := -32000, message := "boom", data := none, asValue := JVal.obj "err" }

/-- Attestation over the digest of the error object errE. -/
def attE : Attestation :=
  { signature := some "sig", signatures := none, signatureFormat := "ssh-ed25519"
  , hashAlgo := "sha256", msg := some "err#", msgs := none, identity := some "idA" }

/-- Error response carrying one attestation of its error content. -/
def respE : AttestedJsonRpcResponse :=
  { result := none, error := some errE, attestations := [attE] }

/-- Client with a configured prover URL. -/
def clientP : StatelessRpcClient :=
  StatelessRpcClient.construct "rpc" ["idA"] (some 1) (some "prover")

/-- Client without a prover URL. -/
def clientN : StatelessRpcClient :=
  StatelessRpcClient.construct "rpc" ["idA"] (some 1) none

/-!
Claim theorems and their supporting lemmas.
-/

/-- Helper: a loop step that returns normally yields the count of the
remaining attestations plus one exactly when the head attestation is
judged valid. -/
theorem validAttestationsCount_cons_ok (env : Env) (identities contentHashes : List String)
    (a : Attestation) (rest : List Attestation) (i n : Nat)
    (h : validAttestationsCount env identities contentHashes (a :: rest) i = Except.ok n) :
    ∃ m, validAttestationsCount env identities contentHashes rest (i + 1) = Except.ok m ∧
      n = (if attestationJudgedValid env identities contentHashes i a = true then 1 else 0) + m := by
  unfold validAttestationsCount at h
  split at h
  next hid =>
    exact ⟨n, h, by simp [attestationJudgedValid, hid]⟩
  next ident hid =>
    split at h
    next hmem =>
      split at h
      next hpk =>
        exact ⟨n, h, by simp [attestationJudgedValid, hid, hpk]⟩
      next sshPublicKey hpk =>
        split at h
        next e hparse => exact absurd h (by simp)
        next key hparse =>
          split at h
          next htype =>
            split at h
            next e hrest => exact absurd h (by simp)
            next m hrest =>
              injection h with h2
              have hmem2 : ident ∈ identities := by simpa using hmem
              exact ⟨m, hrest, by
                rw [← h2]
                simp [attestationJudgedValid, hid, hmem2, hpk, hparse, htype]⟩
          next htype => exact absurd h (by simp)
    next hmem =>
      have hmem2 : ¬ ident ∈ identities := by simpa using hmem
      exact ⟨n, h, by simp [attestationJudgedValid, hid, hmem2]⟩

/-- Helper: a normally-returning counting loop counts exactly the
positions whose attestation is judged valid. -/
theorem validAttestationsCount_eq_enum_filter (env : Env) (identities contentHashes : List String)
    (atts : List Attestation) :
    ∀ (i n : Nat), validAttestationsCount env identities contentHashes atts i = Except.ok n →
      n = ((List.enumFrom i atts).filter fun p =>
            attestationJudgedValid env identities contentHashes p.1 p.2).length := by
  induction atts with
  | nil =>
    intro i n h
    simp [validAttestationsCount] at h
    simp [← h, List.enumFrom]
  | cons a rest ih =>
    intro i n h
    obtain ⟨m, hrest, hn⟩ := validAttestationsCount_cons_ok env identities contentHashes a rest i n h
    rw [show List.enumFrom i (a :: rest) = (i, a) :: List.enumFrom (i + 1) rest from rfl]
    rw [List.filter_cons]
    by_cases hv : attestationJudgedValid env identities contentHashes i a = true
    · simp [hv, hn, ih _ _ hrest, Nat.add_comm]
    · simp [hv, hn, ih _ _ hrest]

/-- C1: for every response, attestation list, allow-list and threshold T,
attestation verification returns true exactly when the counting loop
returns normally with a count of at least T; the count is exactly the
number of positions whose attestation is judged valid; and a constructor
call without a threshold argument defaults the threshold to 1. -/
theorem threshold_iff_valid_count :
    (∀ (env : Env) (identities : List String) (T : Int)
        (response : AttestedJsonRpcResponse) (content : JVal),
      contentOf response = some content →
        (verifyAttestations env identities T response = Except.ok true ↔
          ∃ n : Nat,
            validAttestationsCount env identities (hashContent env.sha256Hex content)
              response.attestations 0 = Except.ok n ∧ T ≤ (n : Int)))
    ∧ (∀ (env : Env) (identities contentHashes : List String)
        (atts : List Attestation) (i n : Nat),
        validAttestationsCount env identities contentHashes atts i = Except.ok n →
          n = ((List.enumFrom i atts).filter fun p =>
                attestationJudgedValid env identities contentHashes p.1 p.2).length)
    ∧ (∀ (rpcUrl : String) (identities : List String) (proverUrl : Option String),
        (StatelessRpcClient.construct rpcUrl identities none proverUrl).minimumRequiredAttestations
          = 1) := by
  refine ⟨?_, ?_, ?_⟩
  · intro env identities T response content h
    unfold verifyAttestations
    rw [h]
    cases hc : validAttestationsCount env identities (hashContent env.sha256Hex content)
        response.attestations 0 with
    | error e => simp [hc]
    | ok n => simp [hc]
  · intro env identities contentHashes atts i n h
    exact validAttestationsCount_eq_enum_filter env identities contentHashes atts i n h
  · intro rpcUrl identities proverUrl
    rfl

/-- Closed witness for threshold_iff_valid_count: a concrete response
with one valid single-mode attestation, threshold 1. -/
theorem threshold_iff_valid_count_witness :
    contentOf respA = some (JVal.obj "r") ∧
    (verifyAttestations envA ["idA"] 1 respA = Except.ok true ↔
      ∃ n : Nat,
        validAttestationsCount envA ["idA"] (hashContent envA.sha256Hex (JVal.obj "r"))
          respA.attestations 0 = Except.ok n ∧ (1 : Int) ≤ (n : Int)) ∧
    (validAttestationsCount envA ["idA"] ["r#"] [attA] 0 = Except.ok 1 →
      1 = ((List.enumFrom 0 [attA]).filter fun p =>
            attestationJudgedValid envA ["idA"] ["r#"] p.1 p.2).length) ∧
    (StatelessRpcClient.construct "rpc" ["idA"] none none).minimumRequiredAttestations = 1 :=
  ⟨rfl,
   threshold_iff_valid_count.1 envA ["idA"] 1 respA (JVal.obj "r") rfl,
   threshold_iff_valid_count.2.1 envA ["idA"] ["r#"] [attA] 0 1,
   threshold_iff_valid_count.2.2 "rpc" ["idA"] none⟩

/-- C2 counterexample: an attestation carrying msgs = [] and signatures =
[] together with an empty content digest set satisfies both conditions of
the claim (the subset check and the all-pairs check hold vacuously), yet
verifyAttestation judges it invalid, because the code additionally
requires msgs to be nonempty before entering the batch branch. -/
theorem batch_empty_msgs_counterexample :
    attB.msgs = some [] ∧ attB.signatures = some [] ∧
    (([] : List String).all fun h => ([] : List String).contains h) = true ∧
    pairsAllVerify envA [1, 2] attB.hashAlgo [] [] = true ∧
    verifyAttestation envA attB [1, 2] [] = false :=
  ⟨rfl, rfl, rfl, rfl, rfl⟩

/-- C2 amended: for every attestation carrying msgs and signatures with
msgs nonempty, the attestation is judged valid iff every digest of the
content digest set appears in msgs and every indexed (msg, signature)
pair verifies; moreover when msgs and signatures have equal length the
all-pairs check is exactly the conjunction over the zipped pairs, so a
single failing pair invalidates the whole attestation. -/
theorem batch_mode_iff_subset_and_pairs :
    (∀ (env : Env) (publicKey : List Nat) (a : Attestation) (contentHashes : List String)
        (msgs signatures : List String),
      a.msgs = some msgs → a.signatures = some signatures → msgs ≠ [] →
        (verifyAttestation env a publicKey contentHashes = true ↔
          (∀ h ∈ contentHashes, h ∈ msgs) ∧
            pairsAllVerify env publicKey a.hashAlgo msgs signatures = true))
    ∧ (∀ (env : Env) (publicKey : List Nat) (hashAlgo : String)
        (msgs signatures : List String), msgs.length = signatures.length →
        (pairsAllVerify env publicKey hashAlgo msgs signatures = true ↔
          ∀ p ∈ msgs.zip signatures,
            verifySignature env p.1 p.2 publicKey hashAlgo = true)) := by
  constructor
  · intro env publicKey a contentHashes msgs signatures hm hs hne
    have hb : batchFieldsPresent a = true := by
      simp [batchFieldsPresent, hm, hs]
      exact hne
    unfold verifyAttestation
    rw [if_pos hb]
    simp [hm, hs, List.all_eq_true]
  · intro env publicKey hashAlgo msgs
    induction msgs with
    | nil =>
      intro signatures hlen
      simp [pairsAllVerify]
    | cons m ms ih =>
      intro signatures hlen
      cases signatures with
      | nil => simp at hlen
      | cons s ss =>
        have hlen2 : ms.length = ss.length := by simpa using hlen
        simp [pairsAllVerify, List.zip_cons_cons, ih ss hlen2]

/-- Closed witness for batch_mode_iff_subset_and_pairs: a batch
attestation with one message and one signature. -/
theorem batch_mode_iff_subset_and_pairs_witness :
    attC.msgs = some ["m0"] ∧ attC.signatures = some ["s0"] ∧
    (["m0"] : List String) ≠ [] ∧ (["m0"] : List String).length = ["s0"].length ∧
    (verifyAttestation envA attC [1, 2] ["m0"] = true ↔
      (∀ h ∈ (["m0"] : List String), h ∈ (["m0"] : List String)) ∧
        pairsAllVerify envA [1, 2] attC.hashAlgo ["m0"] ["s0"] = true) ∧
    (pairsAllVerify envA [1, 2] "sha256" ["m0"] ["s0"] = true ↔
      ∀ p ∈ (["m0"] : List String).zip ["s0"],
        verifySignature envA p.1 p.2 [1, 2] "sha256" = true) :=
  ⟨rfl, rfl, by simp, rfl,
   batch_mode_iff_subset_and_pairs.1 envA [1, 2] attC ["m0"] ["m0"] ["s0"] rfl rfl (by simp),
   batch_mode_iff_subset_and_pairs.2 envA [1, 2] "sha256" ["m0"] ["s0"] rfl⟩

/-- C3: for every attestation in single mode (truthy msg and signature,
and not dispatched to the batch branch), the attestation is judged valid
iff its msg is a member of the content digest set and the single
signature verifies; in particular a msg outside the content digest set is
rejected no matter what the signature checker would say about it. -/
theorem single_mode_iff_member_and_sig :
    ∀ (env : Env) (publicKey : List Nat) (a : Attestation) (contentHashes : List String)
      (m s : String),
      a.msg = some m → a.signature = some s → m ≠ "" → s ≠ "" →
      batchFieldsPresent a = false →
      ((verifyAttestation env a publicKey contentHashes = true ↔
         (m ∈ contentHashes ∧ verifySignature env m s publicKey a.hashAlgo = true))
       ∧ (m ∉ contentHashes → verifyAttestation env a publicKey contentHashes = false)) := by
  intro env publicKey a contentHashes m s hm hs hmne hsne hb
  constructor
  · unfold verifyAttestation
    simp [hb, strTruthy, hm, hs, hmne, hsne]
  · intro hnot
    unfold verifyAttestation
    simp [hb, strTruthy, hm, hs, hmne, hsne, hnot]

/-- Closed witness for single_mode_iff_member_and_sig: the fixture
attestation attA over digest sets that do and do not contain its msg. -/
theorem single_mode_iff_member_and_sig_witness :
    (attA.msg = some "r#" ∧ attA.signature = some "sig" ∧ ("r#" : String) ≠ "" ∧
      ("sig" : String) ≠ "" ∧ batchFieldsPresent attA = false) ∧
    ((verifyAttestation envA attA [1, 2] ["r#"] = true ↔
       ("r#" ∈ (["r#"] : List String) ∧
         verifySignature envA "r#" "sig" [1, 2] attA.hashAlgo = true))
     ∧ ("r#" ∉ (["r#"] : List String) → verifyAttestation envA attA [1, 2] ["r#"] = false)) ∧
    verifyAttestation envA attA [1, 2] ["x"] = false :=
  ⟨⟨rfl, rfl, by decide, by decide, rfl⟩,
   single_mode_iff_member_and_sig envA [1, 2] attA ["r#"] "r#" "sig" rfl rfl
     (by decide) (by decide) rfl,
   (single_mode_iff_member_and_sig envA [1, 2] attA ["x"] "r#" "sig" rfl rfl
     (by decide) (by decide) rfl).2 (by decide)⟩

/-- Attestation carrying an identity that is not in the allow-list. -/
def attF : Attestation := { attA with identity := some "evil" }

/-- Attestation arriving without an identity field. -/
def attG : Attestation := { attA with identity := none }

/-- Helper: defining equation of one step of the counting loop. -/
theorem validAttestationsCount_cons (env : Env) (identities contentHashes : List String)
    (a : Attestation) (rest : List Attestation) (i : Nat) :
    validAttestationsCount env identities contentHashes (a :: rest) i =
      match effectiveIdentity identities i a with
      | none => validAttestationsCount env identities contentHashes rest (i + 1)
      | some ident =>
        if identities.contains ident then
          match env.publicKeyFromIdentity ident with
          | none => validAttestationsCount env identities contentHashes rest (i + 1)
          | some sshPublicKey =>
            match env.parseKey sshPublicKey with
            | Except.error e => Except.error e
            | Except.ok key =>
              if key.type == "ed25519" then
                match validAttestationsCount env identities contentHashes rest (i + 1) with
                | Except.error e => Except.error e
                | Except.ok n =>
                  Except.ok
                    ((if verifyAttestation env a key.keyData contentHashes then 1 else 0) + n)
              else Except.error "The provided key is not an ed25519 key"
        else validAttestationsCount env identities contentHashes rest (i + 1) := rfl

/-- C4: an attestation whose effective identity (own field or positional
fallback) is missing or not in the allow-list is skipped: the loop result
equals the result on the remaining attestations, for every environment,
so in particular neither key resolution nor any signature check on the
skipped attestation can affect the outcome. -/
theorem disallowed_identity_skipped :
    ∀ (env : Env) (identities contentHashes : List String) (a : Attestation)
      (rest : List Attestation) (i : Nat),
      (∀ ident, effectiveIdentity identities i a = some ident →
        identities.contains ident = false) →
      validAttestationsCount env identities contentHashes (a :: rest) i =
        validAttestationsCount env identities contentHashes rest (i + 1) := by
  intro env identities contentHashes a rest i hno
  rw [validAttestationsCount_cons]
  cases hid : effectiveIdentity identities i a with
  | none => rfl
  | some ident =>
    have h2 : ¬ ident ∈ identities := by simpa using hno ident hid
    simp [h2]

/-- Closed witness for disallowed_identity_skipped: one attestation with
the unknown identity evil against the allow-list [idA]. -/
theorem disallowed_identity_skipped_witness :
    (∀ ident, effectiveIdentity ["idA"] 0 attF = some ident →
      (["idA"] : List String).contains ident = false) ∧
    validAttestationsCount envA ["idA"] ["r#"] [attF] 0 =
      validAttestationsCount envA ["idA"] ["r#"] [] 1 := by
  have hno : ∀ ident, effectiveIdentity ["idA"] 0 attF = some ident →
      (["idA"] : List String).contains ident = false := by
    intro ident h
    have h2 : some "evil" = some ident := h
    injection h2 with h3
    rw [← h3]
    decide
  exact ⟨hno, disallowed_identity_skipped envA ["idA"] ["r#"] attF [] 0 hno⟩

/-- C5: inside one verification pass, with an allowed identity, a key
resolution failure skips just that attestation (the loop continues on the
remaining ones), whereas a fetched key that parses to a non-ed25519 type
makes the whole pass abort with the thrown error. -/
theorem resolution_failure_local_type_mismatch_aborts :
    ∀ (env : Env) (identities contentHashes : List String) (a : Attestation)
      (rest : List Attestation) (i : Nat) (ident : String),
      effectiveIdentity identities i a = some ident →
      identities.contains ident = true →
      ((env.publicKeyFromIdentity ident = none →
         validAttestationsCount env identities contentHashes (a :: rest) i =
           validAttestationsCount env identities contentHashes rest (i + 1))
       ∧ (∀ sshPublicKey key, env.publicKeyFromIdentity ident = some sshPublicKey →
           env.parseKey sshPublicKey = Except.ok key → (key.type == "ed25519") = false →
           validAttestationsCount env identities contentHashes (a :: rest) i =
             Except.error "The provided key is not an ed25519 key")) := by
  intro env identities contentHashes a rest i ident hid hmem
  have hmem2 : ident ∈ identities := by simpa using hmem
  constructor
  · intro hpk
    rw [validAttestationsCount_cons, hid]
    simp [hmem2, hpk]
  · intro sshPublicKey key hpk hparse htype
    have htype2 : ¬ key.type = "ed25519" := by simpa using htype
    rw [validAttestationsCount_cons, hid]
    simp [hmem2, hpk, hparse, htype2]

/-- Closed witness for resolution_failure_local_type_mismatch_aborts:
the failing-lookup environment envC skips the attestation; the rsa-key
environment envB aborts the pass. -/
theorem resolution_failure_local_type_mismatch_aborts_witness :
    (effectiveIdentity ["idA"] 0 attA = some "idA" ∧
      (["idA"] : List String).contains "idA" = true) ∧
    (envC.publicKeyFromIdentity "idA" = none ∧
      validAttestationsCount envC ["idA"] ["r#"] [attA] 0 =
        validAttestationsCount envC ["idA"] ["r#"] [] 1) ∧
    (envB.publicKeyFromIdentity "idA" = some "idA-key" ∧
      envB.parseKey "idA-key" = Except.ok { type := "rsa", keyData := [3] } ∧
      validAttestationsCount envB ["idA"] ["r#"] [attA] 0 =
        Except.error "The provided key is not an ed25519 key") :=
  ⟨⟨rfl, rfl⟩,
   ⟨rfl, (resolution_failure_local_type_mismatch_aborts envC ["idA"] ["r#"] attA [] 0 "idA"
      rfl rfl).1 rfl⟩,
   ⟨rfl, rfl, (resolution_failure_local_type_mismatch_aborts envB ["idA"] ["r#"] attA [] 0 "idA"
      rfl rfl).2 "idA-key" { type := "rsa", keyData := [3] } rfl rfl rfl⟩⟩

/-- C9: an attestation at position i with a falsy identity field is
processed exactly as the same attestation carrying the allow-list entry
at position i explicitly: the loop result is identical. -/
theorem positional_identity_fallback :
    ∀ (env : Env) (identities contentHashes : List String) (a : Attestation)
      (rest : List Attestation) (i : Nat) (ident : String),
      strTruthy a.identity = false → identities[i]? = some ident →
      validAttestationsCount env identities contentHashes (a :: rest) i =
        validAttestationsCount env identities contentHashes
          ({ a with identity := some ident } :: rest) i := by
  intro env identities contentHashes a rest i ident hfalsy hidx
  have heff : effectiveIdentity identities i a = some ident := by
    simp [effectiveIdentity, hfalsy, hidx]
  have heff2 : effectiveIdentity identities i { a with identity := some ident } = some ident := by
    by_cases hne : ident = ""
    · subst hne
      simp [effectiveIdentity, strTruthy, hidx]
    · simp [effectiveIdentity, strTruthy, hne]
  rw [validAttestationsCount_cons, heff]
  conv_rhs => rw [validAttestationsCount_cons, heff2]
  rfl

/-- Closed witness for positional_identity_fallback: the identity-less
attestation attG at position 0 of the allow-list [idA]. -/
theorem positional_identity_fallback_witness :
    strTruthy attG.identity = false ∧ (["idA"] : List String)[0]? = some "idA" ∧
    validAttestationsCount envA ["idA"] ["r#"] [attG] 0 =
      validAttestationsCount envA ["idA"] ["r#"] [{ attG with identity := some "idA" }] 0 :=
  ⟨rfl, rfl, positional_identity_fallback envA ["idA"] ["r#"] attG [] 0 "idA" rfl rfl⟩

/-- Helper: when the proof phase is skipped or succeeds, the request
outcome is the outcome of the main phase, and the main-phase events all
appear in the request trace. -/
theorem request_reduces (env : Env) (c : StatelessRpcClient) (method : String)
    (proofOutcome : Except String Unit) (so : Except String AttestedJsonRpcResponse)
    (hpo : (strTruthy c.proverUrl && (method == "eth_call")) = false ∨
      proofOutcome = Except.ok ()) :
    (request env c method proofOutcome so).2 = (requestMainPhase env c so).2 ∧
    (Event.attCheck ∈ (requestMainPhase env c so).1 →
      Event.attCheck ∈ (request env c method proofOutcome so).1) := by
  rcases hpo with hpo | hpo
  · simp [request, hpo]
  · subst hpo
    by_cases hc : (strTruthy c.proverUrl && (method == "eth_call")) = true
    · simp [request, hc]
    · simp [request, hc]

/-- C6: for a response carrying a JSON-RPC error object (and no result),
request hashes exactly the error content for attestation verification,
surfaces the RpcError exactly when verification returns true, fails with
the threshold error when verification returns false, and the attestation
check is in the trace whenever the RpcError is surfaced. -/
theorem rpc_error_gated_by_attestation :
    ∀ (env : Env) (c : StatelessRpcClient) (method : String)
      (proofOutcome : Except String Unit) (resp : AttestedJsonRpcResponse) (e : RpcErrorObj),
      resp.error = some e → resp.result = none →
      ((strTruthy c.proverUrl && (method == "eth_call")) = false ∨
        proofOutcome = Except.ok ()) →
      (contentOf resp = some e.asValue
       ∧ ((request env c method proofOutcome (Except.ok resp)).2 =
            ReqResult.rpcErr e.code e.message e.data ↔
          verifyAttestations env c.identities c.minimumRequiredAttestations resp =
            Except.ok true)
       ∧ (verifyAttestations env c.identities c.minimumRequiredAttestations resp =
            Except.ok false →
          (request env c method proofOutcome (Except.ok resp)).2 =
            ReqResult.thresholdErr c.minimumRequiredAttestations)
       ∧ ((request env c method proofOutcome (Except.ok resp)).2 =
            ReqResult.rpcErr e.code e.message e.data →
          Event.attCheck ∈ (request env c method proofOutcome (Except.ok resp)).1)) := by
  intro env c method proofOutcome resp e herr hres hpo
  obtain ⟨h2, h1mem⟩ := request_reduces env c method proofOutcome (Except.ok resp) hpo
  refine ⟨?_, ?_, ?_, ?_⟩
  · simp [contentOf, hres, herr]
  · rw [h2]
    cases hv : verifyAttestations env c.identities c.minimumRequiredAttestations resp with
    | error e2 => simp [requestMainPhase, hv]
    | ok b =>
      cases b with
      | false => simp [requestMainPhase, hv]
      | true => simp [requestMainPhase, hv, herr]
  · intro hv
    rw [h2]
    simp [requestMainPhase, hv]
  · intro _
    apply h1mem
    cases hv : verifyAttestations env c.identities c.minimumRequiredAttestations resp with
    | error e2 => simp [requestMainPhase, hv]
    | ok b =>
      cases b with
      | false => simp [requestMainPhase, hv]
      | true => simp [requestMainPhase, hv, herr]

/-- Closed witness for rpc_error_gated_by_attestation: the error response
respE under the proverless client clientN. -/
theorem rpc_error_gated_by_attestation_witness :
    (respE.error = some errE ∧ respE.result = none ∧
      (strTruthy clientN.proverUrl && ("eth_call" == "eth_call")) = false) ∧
    (contentOf respE = some errE.asValue
     ∧ ((request envA clientN "eth_call" (Except.ok ()) (Except.ok respE)).2 =
          ReqResult.rpcErr errE.code errE.message errE.data ↔
        verifyAttestations envA clientN.identities clientN.minimumRequiredAttestations respE =
          Except.ok true)
     ∧ (verifyAttestations envA clientN.identities clientN.minimumRequiredAttestations respE =
          Except.ok false →
        (request envA clientN "eth_call" (Except.ok ()) (Except.ok respE)).2 =
          ReqResult.thresholdErr clientN.minimumRequiredAttestations)
     ∧ ((request envA clientN "eth_call" (Except.ok ()) (Except.ok respE)).2 =
          ReqResult.rpcErr errE.code errE.message errE.data →
        Event.attCheck ∈ (request envA clientN "eth_call" (Except.ok ()) (Except.ok respE)).1)) :=
  ⟨⟨rfl, rfl, rfl⟩,
   rpc_error_gated_by_attestation envA clientN "eth_call" (Except.ok ()) respE errE
     rfl rfl (Or.inl rfl)⟩

/-- Helper: the main phase never emits the proof-verification event. -/
theorem proofCheck_not_mem_mainPhase (env : Env) (c : StatelessRpcClient)
    (so : Except String AttestedJsonRpcResponse) :
    Event.proofCheck ∉ (requestMainPhase env c so).1 := by
  cases so with
  | error e => simp [requestMainPhase]
  | ok resp =>
    cases hv : verifyAttestations env c.identities c.minimumRequiredAttestations resp with
    | error e => simp [requestMainPhase, hv]
    | ok b =>
      cases b with
      | false => simp [requestMainPhase, hv]
      | true =>
        cases herr : resp.error with
        | none => simp [requestMainPhase, hv, herr]
        | some e => simp [requestMainPhase, hv, herr]

/-- C7: stateless proof verification runs iff a prover URL is truthy and
the method is eth_call; when it runs it is the first event; a proof
failure makes the trace consist of the proof check alone (the main
request is never sent and no attestation is examined) with the proof
error as outcome; and with no prover URL the call is independent of the
proof outcome and is exactly the main request/attestation phase. -/
theorem stateless_proof_gating :
    ∀ (env : Env) (c : StatelessRpcClient) (method : String)
      (proofOutcome : Except String Unit) (so : Except String AttestedJsonRpcResponse),
      ((Event.proofCheck ∈ (request env c method proofOutcome so).1) ↔
        (strTruthy c.proverUrl = true ∧ method = "eth_call"))
      ∧ (∀ e, (strTruthy c.proverUrl && (method == "eth_call")) = true →
          proofOutcome = Except.error e →
          ((request env c method proofOutcome so).1 = [Event.proofCheck] ∧
           (request env c method proofOutcome so).2 = ReqResult.proofErr e ∧
           Event.mainSend ∉ (request env c method proofOutcome so).1 ∧
           Event.attCheck ∉ (request env c method proofOutcome so).1))
      ∧ ((strTruthy c.proverUrl && (method == "eth_call")) = true →
          (request env c method proofOutcome so).1.head? = some Event.proofCheck)
      ∧ (strTruthy c.proverUrl = false →
          (∀ proofOutcome2, request env c method proofOutcome2 so =
            request env c method proofOutcome so) ∧
          request env c method proofOutcome so = requestMainPhase env c so) := by
  intro env c method proofOutcome so
  refine ⟨?_, ?_, ?_, ?_⟩
  · by_cases hc : (strTruthy c.proverUrl && (method == "eth_call")) = true
    · have hc2 : strTruthy c.proverUrl = true ∧ method = "eth_call" := by
        simpa [Bool.and_eq_true] using hc
      cases proofOutcome with
      | error e => simp [request, hc, hc2]
      | ok u => simp [request, hc, hc2]
    · have hc2 : ¬ (strTruthy c.proverUrl = true ∧ method = "eth_call") := by
        simpa [Bool.and_eq_true] using hc
      simp [request, hc, hc2, proofCheck_not_mem_mainPhase]
  · intro e hc hpo
    subst hpo
    refine ⟨by simp [request, hc], by simp [request, hc], by simp [request, hc],
      by simp [request, hc]⟩
  · intro hc
    cases proofOutcome with
    | error e => simp [request, hc]
    | ok u => simp [request, hc]
  · intro hfalse
    have hc : (strTruthy c.proverUrl && (method == "eth_call")) = false := by
      simp [hfalse]
    exact ⟨fun proofOutcome2 => by simp [request, hc], by simp [request, hc]⟩

/-- Closed witness for stateless_proof_gating: a failing proof with the
prover-configured client clientP, and the proverless client clientN. -/
theorem stateless_proof_gating_witness :
    ((strTruthy clientP.proverUrl && ("eth_call" == "eth_call")) = true) ∧
    ((request envA clientP "eth_call" (Except.error "boom") (Except.ok respA)).1 =
        [Event.proofCheck] ∧
     (request envA clientP "eth_call" (Except.error "boom") (Except.ok respA)).2 =
        ReqResult.proofErr "boom" ∧
     Event.mainSend ∉ (request envA clientP "eth_call" (Except.error "boom") (Except.ok respA)).1 ∧
     Event.attCheck ∉ (request envA clientP "eth_call" (Except.error "boom") (Except.ok respA)).1) ∧
    (Event.proofCheck ∈ (request envA clientN "eth_call" (Except.ok ()) (Except.ok respA)).1 ↔
      (strTruthy clientN.proverUrl = true ∧ "eth_call" = "eth_call")) :=
  ⟨rfl,
   (stateless_proof_gating envA clientP "eth_call" (Except.error "boom") (Except.ok respA)).2.1
     "boom" rfl rfl,
   (stateless_proof_gating envA clientN "eth_call" (Except.ok ()) (Except.ok respA)).1⟩

/-- C8: verifySignature is a total boolean function; a hex-decoding
failure of either input or an error thrown by the verification library
yields false, and it returns true exactly when both decodes and the
library call succeed with a positive verdict. -/
theorem verifySignature_total :
    ∀ (env : Env) (msgHash signature : String) (publicKey : List Nat) (hashAlgo : String),
      (verifySignature env msgHash signature publicKey hashAlgo = true ∨
       verifySignature env msgHash signature publicKey hashAlgo = false)
      ∧ (∀ e, env.bufferFromHex signature = Except.error e →
          verifySignature env msgHash signature publicKey hashAlgo = false)
      ∧ (∀ signatureBytes e, env.bufferFromHex signature = Except.ok signatureBytes →
          env.bufferFromHex msgHash = Except.error e →
          verifySignature env msgHash signature publicKey hashAlgo = false)
      ∧ (∀ signatureBytes msgHashBytes e,
          env.bufferFromHex signature = Except.ok signatureBytes →
          env.bufferFromHex msgHash = Except.ok msgHashBytes →
          env.naclVerify msgHashBytes signatureBytes publicKey = Except.error e →
          verifySignature env msgHash signature publicKey hashAlgo = false)
      ∧ (verifySignature env msgHash signature publicKey hashAlgo = true ↔
          ∃ signatureBytes msgHashBytes,
            env.bufferFromHex signature = Except.ok signatureBytes ∧
            env.bufferFromHex msgHash = Except.ok msgHashBytes ∧
            env.naclVerify msgHashBytes signatureBytes publicKey = Except.ok true) := by
  intro env msgHash signature publicKey hashAlgo
  refine ⟨?_, ?_, ?_, ?_, ?_⟩
  · cases h : verifySignature env msgHash signature publicKey hashAlgo
    · exact Or.inr rfl
    · exact Or.inl rfl
  · intro e h
    simp [verifySignature, h]
  · intro signatureBytes e h1 h2
    simp [verifySignature, h1, h2]
  · intro signatureBytes msgHashBytes e h1 h2 h3
    simp [verifySignature, h1, h2, h3]
  · constructor
    · intro h
      cases h1 : env.bufferFromHex signature with
      | error e => simp [verifySignature, h1] at h
      | ok signatureBytes =>
        cases h2 : env.bufferFromHex msgHash with
        | error e => simp [verifySignature, h1, h2] at h
        | ok msgHashBytes =>
          cases h3 : env.naclVerify msgHashBytes signatureBytes publicKey with
          | error e => simp [verifySignature, h1, h2, h3] at h
          | ok b =>
            have hb : b = true := by simpa [verifySignature, h1, h2, h3] using h
            exact ⟨signatureBytes, msgHashBytes, rfl, rfl, by rw [h3, hb]⟩
    · rintro ⟨signatureBytes, msgHashBytes, h1, h2, h3⟩
      simp [verifySignature, h1, h2, h3]

/-- Closed witness for verifySignature_total: the throwing hex decoder of
envD forces a false verdict, and the all-accepting envA a true one. -/
theorem verifySignature_total_witness :
    (envD.bufferFromHex "s0" = Except.error "bad hex" ∧
      verifySignature envD "m0" "s0" [1, 2] "sha256" = false) ∧
    (verifySignature envA "m0" "s0" [1, 2] "sha256" = true ↔
      ∃ signatureBytes msgHashBytes,
        envA.bufferFromHex "s0" = Except.ok signatureBytes ∧
        envA.bufferFromHex "m0" = Except.ok msgHashBytes ∧
        envA.naclVerify msgHashBytes signatureBytes [1, 2] = Except.ok true) :=
  ⟨⟨rfl, (verifySignature_total envD "m0" "s0" [1, 2] "sha256").2.1 "bad hex" rfl⟩,
   (verifySignature_total envA "m0" "s0" [1, 2] "sha256").2.2.2.2⟩

/-- Response with no attestations attached. -/
def respZ : AttestedJsonRpcResponse :=
  { result := some (JVal.obj "r"), error := none, attestations := [] }

/-- C10: the constructor stores a non-positive threshold unvalidated, and
for such a threshold verification of a response with an empty
attestations array succeeds in every environment (so no key is resolved
and no signature checked), letting request release the result, or raise
the RpcError, unattested. -/
theorem nonpositive_threshold_accepted :
    ∀ (T : Int) (env : Env) (resp : AttestedJsonRpcResponse) (method rpcUrl : String)
      (identities : List String) (proofOutcome : Except String Unit) (content : JVal),
      T ≤ 0 → resp.attestations = [] → contentOf resp = some content →
      ((StatelessRpcClient.construct rpcUrl identities (some T) none).minimumRequiredAttestations
          = T
       ∧ verifyAttestations env identities T resp = Except.ok true
       ∧ (resp.error = none →
           (request env (StatelessRpcClient.construct rpcUrl identities (some T) none) method
             proofOutcome (Except.ok resp)).2 = ReqResult.ok resp.result)
       ∧ (∀ e, resp.error = some e →
           (request env (StatelessRpcClient.construct rpcUrl identities (some T) none) method
             proofOutcome (Except.ok resp)).2 = ReqResult.rpcErr e.code e.message e.data)) := by
  intro T env resp method rpcUrl identities proofOutcome content hT hatt hcontent
  have hva : verifyAttestations env identities T resp = Except.ok true := by
    unfold verifyAttestations
    rw [hcontent, hatt]
    simp [validAttestationsCount, hT]
  have hreq : request env (StatelessRpcClient.construct rpcUrl identities (some T) none) method
      proofOutcome (Except.ok resp) =
      requestMainPhase env (StatelessRpcClient.construct rpcUrl identities (some T) none)
        (Except.ok resp) := rfl
  refine ⟨rfl, hva, ?_, ?_⟩
  · intro herr
    rw [hreq]
    simp [requestMainPhase, StatelessRpcClient.construct, hva, herr]
  · intro e herr
    rw [hreq]
    simp [requestMainPhase, StatelessRpcClient.construct, hva, herr]

/-- Closed witness for nonpositive_threshold_accepted: threshold 0 and
the attestation-free response respZ. -/
theorem nonpositive_threshold_accepted_witness :
    ((0 : Int) ≤ 0 ∧ respZ.attestations = [] ∧ contentOf respZ = some (JVal.obj "r")) ∧
    ((StatelessRpcClient.construct "rpc" ["idA"] (some 0) none).minimumRequiredAttestations = 0
     ∧ verifyAttestations envA ["idA"] 0 respZ = Except.ok true
     ∧ (respZ.error = none →
         (request envA (StatelessRpcClient.construct "rpc" ["idA"] (some 0) none) "eth_call"
           (Except.ok ()) (Except.ok respZ)).2 = ReqResult.ok respZ.result)
     ∧ (∀ e, respZ.error = some e →
         (request envA (StatelessRpcClient.construct "rpc" ["idA"] (some 0) none) "eth_call"
           (Except.ok ()) (Except.ok respZ)).2 = ReqResult.rpcErr e.code e.message e.data)) :=
  ⟨⟨le_refl 0, rfl, rfl⟩,
   nonpositive_threshold_accepted 0 envA respZ "eth_call" "rpc" ["idA"] (Except.ok ())
     (JVal.obj "r") (le_refl 0) rfl rfl⟩
